import Mathlib

/-!
Shallow embedding of the Uber fare-prediction Streamlit app (src/main.py).

Numeric values (coordinates, fares) are modelled as rationals.  User-visible
surfaces (st.error, st.warning, st.info, st.markdown, st.write) are modelled
as a list of `Msg` values produced by each code path.  The external
collaborators — the geocoding service and the pickled regression model — are
modelled as explicit behaviours passed in (`GeoResponse`, `Predictor`), and
the embedding counts how many times each collaborator is invoked.  A Python
exception that the script does not catch is modelled as `Option.none` in the
result of the corresponding function.
-/

/-- A user-visible output surface emitted by the app (Streamlit calls). -/
inductive Msg where
  | error (s : String)
  | warning (s : String)
  | info (s : String)
  | markdown (s : String)
  | write (s : String)
  | writeData (d : List (String × Option ℚ))
  deriving DecidableEq, Repr

/-- Behaviour of one call to the external geocoding collaborator
(geopy Nominatim): a match, no match, or a raised collaborator-side error. -/
inductive GeoResponse where
  | found (lat lon : ℚ)
  | noMatch
  | err (e : String)
  deriving DecidableEq, Repr

/-- `get_coords` (src/main.py lines 30-41): geocodes an address to
(latitude, longitude).  A match gives the pair, no match gives `(None, None)`,
and a raised collaborator error is caught, shown with `st.error`, and also
gives `(None, None)`. -/
def get_coords (geo : GeoResponse) : (Option ℚ × Option ℚ) × List Msg :=
  match geo with
  | GeoResponse.found lat lon => ((some lat, some lon), [])
  | GeoResponse.noMatch => ((none, none), [])
  | GeoResponse.err e => ((none, none), [Msg.error ("Geocoding error: " ++ e)])

/-- Value of one entry of the `NYC_LOCATIONS` dict: a (lat, lon) tuple, the
sentinel string "CUSTOM", the sentinel string "MANUAL", or Python `None`. -/
inductive LocEntry where
  | coords (lat lon : ℚ)
  | custom
  | manual
  | unset
  deriving DecidableEq, Repr

/-- The fixed landmark table `NYC_LOCATIONS` (src/main.py lines 44-57). -/
def NYC_LOCATIONS : List (String × LocEntry) :=
  [("Select a location...", LocEntry.unset),
   ("JFK Airport", LocEntry.coords (40.6413 : ℚ) (-73.7781 : ℚ)),
   ("LaGuardia Airport", LocEntry.coords (40.7769 : ℚ) (-73.8740 : ℚ)),
   ("Times Square", LocEntry.coords (40.7580 : ℚ) (-73.9855 : ℚ)),
   ("Empire State Building", LocEntry.coords (40.7488 : ℚ) (-73.9857 : ℚ)),
   ("Central Park", LocEntry.coords (40.7851 : ℚ) (-73.9683 : ℚ)),
   ("One World Trade Center", LocEntry.coords (40.7127 : ℚ) (-74.0134 : ℚ)),
   ("Chrysler Building", LocEntry.coords (40.7516 : ℚ) (-73.9755 : ℚ)),
   ("Brooklyn Bridge", LocEntry.coords (40.7061 : ℚ) (-73.9969 : ℚ)),
   ("Grand Central Terminal", LocEntry.coords (40.7527 : ℚ) (-73.9772 : ℚ)),
   ("Custom Address", LocEntry.custom),
   ("Manual Coordinates", LocEntry.manual)]

/-- The options offered by the pickup/dropoff selectbox:
`list(NYC_LOCATIONS.keys())` (src/main.py line 77 and line 124). -/
def locationOptions : List String := NYC_LOCATIONS.map Prod.fst

/-- Round a rational to the nearest integer, ties to even — the rounding
used by Python fixed-point string formatting. -/
def roundHalfEven (x : ℚ) : ℤ :=
  let f : ℤ := Int.fdiv x.num x.den
  let r : ℤ := x.num - f * x.den
  if 2 * r < (x.den : ℤ) then f
  else if (x.den : ℤ) < 2 * r then f + 1
  else if f % 2 = 0 then f else f + 1

/-- A natural number printed in decimal, left-padded with zeros to `k` digits. -/
def natPadded (n k : ℕ) : String :=
  let s := toString n
  String.mk (List.replicate (k - s.length) '0') ++ s

/-- Python fixed-point formatting `f"{q:.prec f}"` of a rational. -/
def formatFixed (prec : ℕ) (q : ℚ) : String :=
  let scaled : ℤ := roundHalfEven (q * (10 : ℚ) ^ prec)
  let sign := if scaled < 0 then "-" else ""
  let m := scaled.natAbs
  if prec = 0 then sign ++ toString m
  else sign ++ toString (m / 10 ^ prec) ++ "." ++ natPadded (m % 10 ^ prec) prec

/-- The info banner echoing resolved coordinates
(src/main.py lines 116-117 and 164-167): shown only when both latitude and
longitude are present, formatted to six decimals. -/
def displayInfo (lat lon : Option ℚ) (infoLabel : String) : List Msg :=
  match lat, lon with
  | some a, some b =>
      [Msg.info (infoLabel ++ formatFixed 6 a ++ ", " ++ formatFixed 6 b)]
  | _, _ => []

/-- One location block of `main` (pickup: src/main.py lines 81-117; dropoff:
lines 129-167, identical up to labels).  Given the selectbox value, the
custom-address text, the manual-coordinate inputs and the collaborator
behaviour, produce the (lat, lon) pair (each possibly `None`), the emitted
messages, and the number of geocoding calls made.  `Option.none` models an
uncaught exception (a `KeyError` / tuple-unpack failure on the dict lookup,
impossible for selectbox-provided options). -/
def resolveLocation (opt addr : String) (mlat mlon : ℚ) (geo : GeoResponse)
    (warnMsg infoLabel : String) :
    Option ((Option ℚ × Option ℚ) × List Msg × ℕ) :=
  let branch : Option ((Option ℚ × Option ℚ) × List Msg × ℕ) :=
    if opt = "Custom Address" then
      if addr ≠ "" then
        let r := get_coords geo
        let warn := if r.1.1 = none then [Msg.warning warnMsg] else []
        some (r.1, r.2 ++ warn, 1)
      else some ((none, none), [], 0)
    else if opt = "Manual Coordinates" then
      some ((some mlat, some mlon), [], 0)
    else if opt ≠ "" ∧ opt ≠ "Select a location..." then
      match NYC_LOCATIONS.lookup opt with
      | some (LocEntry.coords lat lon) => some ((some lat, some lon), [], 0)
      | _ => none
    else some ((none, none), [], 0)
  match branch with
  | none => none
  | some ((lat, lon), msgs, calls) =>
      some ((lat, lon), msgs ++ displayInfo lat lon infoLabel, calls)

/-- A proleptic-Gregorian calendar date, as in Python `datetime.date`. -/
structure Date where
  year : ℕ
  month : ℕ
  day : ℕ
  deriving DecidableEq, Repr

/-- A wall-clock time, as in Python `datetime.time`. -/
structure Time where
  hour : ℕ
  minute : ℕ
  deriving DecidableEq, Repr

/-- `datetime.combine(date, time)`: a date paired with a time. -/
structure DateTime where
  date : Date
  time : Time
  deriving DecidableEq, Repr

def datetimeCombine (d : Date) (t : Time) : DateTime := ⟨d, t⟩

def isLeapYear (y : ℕ) : Bool :=
  (y % 4 = 0 && y % 100 ≠ 0) || y % 400 = 0

/-- Number of days of month `m` (1 = January) in year `y`. -/
def daysInMonth (y m : ℕ) : ℕ :=
  if m = 2 then (if isLeapYear y then 29 else 28)
  else if m = 4 ∨ m = 6 ∨ m = 9 ∨ m = 11 then 30
  else 31

/-- Number of days of year `y` that precede month `m`. -/
def daysBeforeMonth (y m : ℕ) : ℕ :=
  ((List.range (m - 1)).map (fun k => daysInMonth y (k + 1))).sum

/-- Proleptic-Gregorian ordinal of a date, with 0001-01-01 being day 1 —
Python `date.toordinal()`. -/
def dateToOrdinal (d : Date) : ℕ :=
  let y := d.year - 1
  365 * y + y / 4 - y / 100 + y / 400 + daysBeforeMonth d.year d.month + d.day

/-- Python `date.weekday()`: 0 = Monday .. 6 = Sunday
(0001-01-01 was a Monday in the proleptic Gregorian calendar). -/
def dateWeekday (d : Date) : ℕ := (dateToOrdinal d + 6) % 7

def DateTime.hour (dt : DateTime) : ℕ := dt.time.hour

/-- `datetime.weekday()` depends only on the date part. -/
def DateTime.weekday (dt : DateTime) : ℕ := dateWeekday dt.date

/-- One row of the pandas DataFrame handed to the model: named columns in
insertion order, each holding one value (Python `None` allowed). -/
abbrev DataFrameRow := List (String × Option ℚ)

/-- The pickled model's behaviour: `model.predict(input_data)` either returns
an array of predictions or raises. -/
abbrev Predictor := DataFrameRow → Except String (List ℚ)

/-- The `input_data` DataFrame (src/main.py lines 196-206): seven named
columns in the fixed, model-contractual insertion order. -/
def input_data (pickup_lon pickup_lat dropoff_lon dropoff_lat : Option ℚ)
    (passengers hour day_of_week : ℕ) : DataFrameRow :=
  [("pickup_longitude", pickup_lon),
   ("pickup_latitude", pickup_lat),
   ("dropoff_longitude", dropoff_lon),
   ("dropoff_latitude", dropoff_lat),
   ("passenger_count", some (passengers : ℚ)),
   ("hour", some (hour : ℚ)),
   ("day_of_week", some (day_of_week : ℚ))]

/-- Feature assembly (src/main.py lines 191-206): combine date and time,
derive `hour` and `day_of_week`, and build the `input_data` row. -/
def assembleRow (pickup_lat pickup_lon dropoff_lat dropoff_lon : Option ℚ)
    (ride_date : Date) (ride_time : Time) (passengers : ℕ) : DataFrameRow :=
  let ride_datetime := datetimeCombine ride_date ride_time
  let hour := ride_datetime.hour
  let day_of_week := ride_datetime.weekday
  input_data pickup_lon pickup_lat dropoff_lon dropoff_lat
    passengers hour day_of_week

/-- The markdown block shown on success (src/main.py lines 212-220), with the
fare already formatted to two decimals. -/
def fareHtml (fareStr : String) : String :=
  "\n<div style=\"text-align: center; padding: 5px; background-color: transparent; border-radius: 10px; margin-top: 5px;\">\n    <h3>Estimated Fare</h3>\n    <h1 style=\"color: #00CC00;\">$" ++
    fareStr ++ "</h1>\n</div>\n"

/-- The "Estimate Fare" click handler (src/main.py lines 184-225): check the
precondition on the two latitudes, assemble the feature row, call
`model.predict` inside a try/except, and display either the formatted fare or
the failure with the offending row.  Returns the emitted messages and the
number of `predict` calls made. -/
def estimateSection (model : Predictor)
    (pickup_lat pickup_lon dropoff_lat dropoff_lon : Option ℚ)
    (ride_date : Date) (ride_time : Time) (passengers : ℕ) :
    List Msg × ℕ :=
  if pickup_lat = none ∨ dropoff_lat = none then
    ([Msg.error "Please select valid Pickup and Dropoff locations."], 0)
  else
    let row := assembleRow pickup_lat pickup_lon dropoff_lat dropoff_lon
      ride_date ride_time passengers
    match model row with
    | Except.ok prediction =>
        match prediction.head? with
        | some fare => ([Msg.markdown (fareHtml (formatFixed 2 fare))], 1)
        | none =>
            ([Msg.error "Prediction failed: index 0 is out of bounds",
              Msg.write "Debug info - Input Data:", Msg.writeData row], 1)
    | Except.error e =>
        ([Msg.error ("Prediction failed: " ++ e),
          Msg.write "Debug info - Input Data:", Msg.writeData row], 1)

/-- Outcome of `load_model`'s attempt to unpickle `model.pkr`. -/
inductive LoadResult where
  | ok (m : Predictor)
  | fileNotFound
  | loadError (e : String)

/-- `load_model` (src/main.py lines 13-27): returns the model, or shows one
`st.error` and returns `None` on `FileNotFoundError` or any other failure. -/
def load_model : LoadResult → Option Predictor × List Msg
  | LoadResult.ok m => (some m, [])
  | LoadResult.fileNotFound =>
      (none,
       [Msg.error
         "Model file 'model.pkr' not found. Please ensure it is in the same directory."])
  | LoadResult.loadError e =>
      (none, [Msg.error ("Error loading model: " ++ e)])

/-- The widget state of one rendered session of `main`, together with the
behaviours the external collaborators would exhibit if invoked. -/
structure UIState where
  pickup_option : String
  pickup_address : String
  pickup_manual_lat : ℚ
  pickup_manual_lon : ℚ
  pickup_geo : GeoResponse
  dropoff_option : String
  dropoff_address : String
  dropoff_manual_lat : ℚ
  dropoff_manual_lon : ℚ
  dropoff_geo : GeoResponse
  ride_date : Date
  ride_time : Time
  passengers : ℕ
  estimate_clicked : Bool

namespace App

/-- `main` (src/main.py lines 60-225): load the model (abort after one error
if that fails), resolve pickup and dropoff, and on the estimate trigger run
the estimate section.  Returns the emitted messages, the number of geocoding
calls, and the number of `predict` calls; `Option.none` models an uncaught
exception. -/
def main (load : LoadResult) (ui : UIState) : Option (List Msg × ℕ × ℕ) :=
  let lm := load_model load
  match lm.1 with
  | none => some (lm.2, 0, 0)
  | some model =>
    match resolveLocation ui.pickup_option ui.pickup_address
        ui.pickup_manual_lat ui.pickup_manual_lon ui.pickup_geo
        "Could not find pickup address. Please try again."
        "**Pickup Coordinates:** " with
    | none => none
    | some ((pickup_lat, pickup_lon), pmsgs, pgeo) =>
      match resolveLocation ui.dropoff_option ui.dropoff_address
          ui.dropoff_manual_lat ui.dropoff_manual_lon ui.dropoff_geo
          "Could not find dropoff address. Please try again."
          "**Dropoff Coordinates:** " with
      | none => none
      | some ((dropoff_lat, dropoff_lon), dmsgs, dgeo) =>
        if ui.estimate_clicked then
          let est := estimateSection model pickup_lat pickup_lon
            dropoff_lat dropoff_lon ui.ride_date ui.ride_time ui.passengers
          some (lm.2 ++ pmsgs ++ dmsgs ++ est.1, pgeo + dgeo, est.2)
        else some (lm.2 ++ pmsgs ++ dmsgs, pgeo + dgeo, 0)

end App

/-! ### Helper lemmas -/

lemma dateWeekday_mar11 : dateWeekday ⟨2024, 3, 11⟩ = 0 := by decide

lemma dateWeekday_mar17 : dateWeekday ⟨2024, 3, 17⟩ = 6 := by decide

lemma formatFixed_two_2345 : formatFixed 2 (23.45 : ℚ) = "23.45" := by
  with_unfolding_all decide

lemma formatFixed_two_7 : formatFixed 2 (7 : ℚ) = "7.00" := by
  with_unfolding_all decide

lemma formatFixed_two_neg12 : formatFixed 2 (-1.2 : ℚ) = "-1.20" := by
  with_unfolding_all decide

/-- The landmark table's keys are distinct, so key lookup finds every entry. -/
lemma lookup_NYC_of_mem :
    ∀ p ∈ NYC_LOCATIONS, NYC_LOCATIONS.lookup p.1 = some p.2 := by
  intro p hp
  fin_cases hp <;> rfl

/-- For every option offered by the selectbox, each location block resolves
without an uncaught exception, and the latitude it produces is `None` exactly
when the longitude is. -/
lemma resolveLocation_options_total (opt addr : String) (mlat mlon : ℚ)
    (geo : GeoResponse) (w i : String) (hopt : opt ∈ locationOptions) :
    ∃ lat lon msgs calls,
      resolveLocation opt addr mlat mlon geo w i =
        some ((lat, lon), msgs, calls) ∧ (lat = none ↔ lon = none) := by
  fin_cases hopt <;>
    try exact ⟨none, none, [], 0, rfl, Iff.rfl⟩
  all_goals try exact ⟨some _, some _, _, _, rfl, by simp⟩
  by_cases haddr : addr = ""
  · exact ⟨none, none, [], 0, by simp [resolveLocation, haddr, displayInfo],
      by simp⟩
  · cases geo with
    | found a b =>
        exact ⟨some a, some b,
          [Msg.info (i ++ formatFixed 6 a ++ ", " ++ formatFixed 6 b)], 1,
          by simp [resolveLocation, haddr, get_coords, displayInfo], by simp⟩
    | noMatch =>
        exact ⟨none, none, [Msg.warning w], 1,
          by simp [resolveLocation, haddr, get_coords, displayInfo], by simp⟩
    | err e =>
        exact ⟨none, none,
          [Msg.error ("Geocoding error: " ++ e), Msg.warning w], 1,
          by simp [resolveLocation, haddr, get_coords, displayInfo], by simp⟩

/-! ### Claim theorems -/

/-- C1: feature-vector assembly is order-stable and follows the fixed
model-contractual order: for pickup (40.75, -73.99), dropoff (40.76, -73.97),
2 passengers, and datetime 2024-03-11T14:30 (a Monday), the assembled 7-field
row equals [pickup_longitude=-73.99, pickup_latitude=40.75,
dropoff_longitude=-73.97, dropoff_latitude=40.76, passenger_count=2, hour=14,
day_of_week=0], in that field order. -/
theorem feature_vector_assembly_order_stable :
    assembleRow (some (40.75 : ℚ)) (some (-73.99 : ℚ)) (some (40.76 : ℚ))
        (some (-73.97 : ℚ)) ⟨2024, 3, 11⟩ ⟨14, 30⟩ 2 =
      [("pickup_longitude", some (-73.99 : ℚ)),
       ("pickup_latitude", some (40.75 : ℚ)),
       ("dropoff_longitude", some (-73.97 : ℚ)),
       ("dropoff_latitude", some (40.76 : ℚ)),
       ("passenger_count", some (2 : ℚ)),
       ("hour", some (14 : ℚ)),
       ("day_of_week", some (0 : ℚ))] := by
  simp [assembleRow, input_data, datetimeCombine, DateTime.hour,
    DateTime.weekday, dateWeekday_mar11]

/-- C2: whenever the pickup coordinate or the dropoff coordinate is
unresolved (`None`), the estimate handler fails with the incomplete-input
error message and the predictor is never invoked (predict-call count 0). -/
theorem estimate_incomplete_input (model : Predictor)
    (pickup_lat pickup_lon dropoff_lat dropoff_lon : Option ℚ)
    (rd : Date) (rt : Time) (p : ℕ)
    (h : (pickup_lat = none ∧ pickup_lon = none) ∨
      (dropoff_lat = none ∧ dropoff_lon = none)) :
    estimateSection model pickup_lat pickup_lon dropoff_lat dropoff_lon
        rd rt p =
      ([Msg.error "Please select valid Pickup and Dropoff locations."], 0) := by
  rcases h with ⟨h1, -⟩ | ⟨h1, -⟩ <;> simp [estimateSection, h1]

theorem estimate_incomplete_input_witness :
    estimateSection (fun _ => Except.ok [(5 : ℚ)]) none none
        (some (40.76 : ℚ)) (some (-73.97 : ℚ)) ⟨2024, 3, 11⟩ ⟨14, 30⟩ 1 =
      ([Msg.error "Please select valid Pickup and Dropoff locations."], 0) :=
  estimate_incomplete_input _ _ _ _ _ _ _ _ (Or.inl ⟨rfl, rfl⟩)

/-- C3: for every feature vector on which the predictor raises, the estimate
handler catches the failure, reports it together with the exact feature row
that was attempted, and calls predict exactly once (no retry). -/
theorem prediction_failure_reported (model : Predictor)
    (plat plon dlat dlon : ℚ) (rd : Date) (rt : Time) (p : ℕ) (e : String)
    (h : model (assembleRow (some plat) (some plon) (some dlat) (some dlon)
      rd rt p) = Except.error e) :
    estimateSection model (some plat) (some plon) (some dlat) (some dlon)
        rd rt p =
      ([Msg.error ("Prediction failed: " ++ e),
        Msg.write "Debug info - Input Data:",
        Msg.writeData (assembleRow (some plat) (some plon) (some dlat)
          (some dlon) rd rt p)], 1) := by
  simp [estimateSection, h]

theorem prediction_failure_reported_witness :
    estimateSection (fun _ => Except.error "boom") (some (40.75 : ℚ))
        (some (-73.99 : ℚ)) (some (40.76 : ℚ)) (some (-73.97 : ℚ))
        ⟨2024, 3, 11⟩ ⟨14, 30⟩ 2 =
      ([Msg.error ("Prediction failed: " ++ "boom"),
        Msg.write "Debug info - Input Data:",
        Msg.writeData (assembleRow (some (40.75 : ℚ)) (some (-73.99 : ℚ))
          (some (40.76 : ℚ)) (some (-73.97 : ℚ)) ⟨2024, 3, 11⟩ ⟨14, 30⟩ 2)], 1) :=
  prediction_failure_reported _ _ _ _ _ _ _ _ _ rfl

/-- C4: on success the displayed fare is the first scalar of the predictor's
output formatted to exactly two decimals, with no rounding or clamping of
negative values: [23.45] displays "23.45", [7] displays "7.00", [-1.2]
displays "-1.20", and with several outputs the first is used. -/
theorem fare_display_two_decimals :
    (estimateSection (fun _ => Except.ok [(23.45 : ℚ)]) (some (40.75 : ℚ))
        (some (-73.99 : ℚ)) (some (40.76 : ℚ)) (some (-73.97 : ℚ))
        ⟨2024, 3, 11⟩ ⟨14, 30⟩ 2 = ([Msg.markdown (fareHtml "23.45")], 1))
  ∧ (estimateSection (fun _ => Except.ok [(7 : ℚ)]) (some (40.75 : ℚ))
        (some (-73.99 : ℚ)) (some (40.76 : ℚ)) (some (-73.97 : ℚ))
        ⟨2024, 3, 11⟩ ⟨14, 30⟩ 2 = ([Msg.markdown (fareHtml "7.00")], 1))
  ∧ (estimateSection (fun _ => Except.ok [(-1.2 : ℚ)]) (some (40.75 : ℚ))
        (some (-73.99 : ℚ)) (some (40.76 : ℚ)) (some (-73.97 : ℚ))
        ⟨2024, 3, 11⟩ ⟨14, 30⟩ 2 = ([Msg.markdown (fareHtml "-1.20")], 1))
  ∧ (estimateSection (fun _ => Except.ok [(23.45 : ℚ), (99 : ℚ)])
        (some (40.75 : ℚ)) (some (-73.99 : ℚ)) (some (40.76 : ℚ))
        (some (-73.97 : ℚ)) ⟨2024, 3, 11⟩ ⟨14, 30⟩ 2 =
        ([Msg.markdown (fareHtml "23.45")], 1)) := by
  refine ⟨?_, ?_, ?_, ?_⟩ <;>
    simp [estimateSection, formatFixed_two_2345, formatFixed_two_7,
      formatFixed_two_neg12]

/-- C5: every named landmark of the fixed table resolves deterministically to
its stored (lat, lon) pair with zero geocoding calls, and — because the
selectbox options are exactly the table's keys — resolution never hits a
failed lookup (no uncaught exception) for any selectable option. -/
theorem landmark_resolution_fixed (name : String) (lat lon : ℚ)
    (hmem : (name, LocEntry.coords lat lon) ∈ NYC_LOCATIONS)
    (addr : String) (mlat mlon : ℚ) (geo : GeoResponse) (w i : String) :
    (resolveLocation name addr mlat mlon geo w i =
        some ((some lat, some lon),
          displayInfo (some lat) (some lon) i, 0))
  ∧ ∀ opt ∈ locationOptions,
      resolveLocation opt addr mlat mlon geo w i ≠ none := by
  constructor
  · have hlk : NYC_LOCATIONS.lookup name = some (LocEntry.coords lat lon) :=
      lookup_NYC_of_mem (name, LocEntry.coords lat lon) hmem
    have h1 : ¬ name = "Custom Address" := by
      rintro rfl
      rw [show NYC_LOCATIONS.lookup "Custom Address" = some LocEntry.custom
        from rfl] at hlk
      simp at hlk
    have h2 : ¬ name = "Manual Coordinates" := by
      rintro rfl
      rw [show NYC_LOCATIONS.lookup "Manual Coordinates" =
        some LocEntry.manual from rfl] at hlk
      simp at hlk
    have h3 : ¬ name = "" := by
      rintro rfl
      rw [show NYC_LOCATIONS.lookup "" = none from rfl] at hlk
      exact Option.noConfusion hlk
    have h4 : ¬ name = "Select a location..." := by
      rintro rfl
      rw [show NYC_LOCATIONS.lookup "Select a location..." =
        some LocEntry.unset from rfl] at hlk
      simp at hlk
    simp [resolveLocation, h1, h2, h3, h4, hlk]
  · intro opt hopt
    obtain ⟨rlat, rlon, rmsgs, rcalls, heq, -⟩ :=
      resolveLocation_options_total opt addr mlat mlon geo w i hopt
    simp [heq]

theorem landmark_resolution_fixed_witness :
    (resolveLocation "JFK Airport" "" 0 0 GeoResponse.noMatch "w" "i" =
        some ((some (40.6413 : ℚ), some (-73.7781 : ℚ)),
          displayInfo (some (40.6413 : ℚ)) (some (-73.7781 : ℚ)) "i", 0))
  ∧ ∀ opt ∈ locationOptions,
      resolveLocation opt "" 0 0 GeoResponse.noMatch "w" "i" ≠ none :=
  landmark_resolution_fixed "JFK Airport" _ _ (by simp [NYC_LOCATIONS])
    "" 0 0 GeoResponse.noMatch "w" "i"

/-- C6: in custom-address mode with an empty free-text input, resolution
yields no coordinate and performs zero geocoding calls, whatever the
collaborator would have answered. -/
theorem empty_address_skips_geocoder (mlat mlon : ℚ) (geo : GeoResponse)
    (w i : String) :
    resolveLocation "Custom Address" "" mlat mlon geo w i =
      some ((none, none), [], 0) := by
  simp [resolveLocation, displayInfo]

/-- C7: for a nonempty free-text address, a no-match answer and a
collaborator-side error both resolve to no coordinate with a user-facing
warning (the error case additionally surfaces the caught error text), the
geocoder is called exactly once (no retry), no uncaught exception escapes,
and the result is never partially filled: the latitude is `None` exactly
when the longitude is. -/
theorem geocode_unresolved_is_warning (addr : String) (mlat mlon : ℚ)
    (w i : String) (haddr : addr ≠ "") :
    (resolveLocation "Custom Address" addr mlat mlon GeoResponse.noMatch w i =
        some ((none, none), [Msg.warning w], 1))
  ∧ (∀ e, resolveLocation "Custom Address" addr mlat mlon
        (GeoResponse.err e) w i =
        some ((none, none),
          [Msg.error ("Geocoding error: " ++ e), Msg.warning w], 1))
  ∧ (∀ geo : GeoResponse, ∃ lat lon msgs,
        resolveLocation "Custom Address" addr mlat mlon geo w i =
          some ((lat, lon), msgs, 1) ∧ (lat = none ↔ lon = none)) := by
  refine ⟨?_, ?_, ?_⟩
  · simp [resolveLocation, haddr, get_coords, displayInfo]
  · intro e
    simp [resolveLocation, haddr, get_coords, displayInfo]
  · intro geo
    cases geo with
    | found a b =>
        exact ⟨some a, some b,
          [Msg.info (i ++ formatFixed 6 a ++ ", " ++ formatFixed 6 b)],
          by simp [resolveLocation, haddr, get_coords, displayInfo], by simp⟩
    | noMatch =>
        exact ⟨none, none, [Msg.warning w],
          by simp [resolveLocation, haddr, get_coords, displayInfo], by simp⟩
    | err e =>
        exact ⟨none, none,
          [Msg.error ("Geocoding error: " ++ e), Msg.warning w],
          by simp [resolveLocation, haddr, get_coords, displayInfo], by simp⟩

theorem geocode_unresolved_is_warning_witness :
    (resolveLocation "Custom Address" "221B Baker Street" 0 0
        GeoResponse.noMatch "w" "i" = some ((none, none), [Msg.warning "w"], 1))
  ∧ (∀ e, resolveLocation "Custom Address" "221B Baker Street" 0 0
        (GeoResponse.err e) "w" "i" =
        some ((none, none),
          [Msg.error ("Geocoding error: " ++ e), Msg.warning "w"], 1))
  ∧ (∀ geo : GeoResponse, ∃ lat lon msgs,
        resolveLocation "Custom Address" "221B Baker Street" 0 0 geo "w" "i" =
          some ((lat, lon), msgs, 1) ∧ (lat = none ↔ lon = none)) :=
  geocode_unresolved_is_warning "221B Baker Street" 0 0 "w" "i" (by decide)

/-- C8: if loading the model artifact fails — file missing or any
deserialization error — the session shows exactly one blocking error
message, no estimate UI output is produced, and neither collaborator is
ever invoked, whatever the widget state. -/
theorem model_load_failure_blocks_session (ui : UIState) (e : String) :
    (App.main LoadResult.fileNotFound ui =
      some ([Msg.error
        "Model file 'model.pkr' not found. Please ensure it is in the same directory."],
        0, 0))
  ∧ (App.main (LoadResult.loadError e) ui =
      some ([Msg.error ("Error loading model: " ++ e)], 0, 0)) :=
  ⟨rfl, rfl⟩

/-- C9: weekday derivation from the combined date+time follows the
Monday=0..Sunday=6 convention: 2024-03-11 gives 0 (Monday) and 2024-03-17
gives 6 (Sunday), and the derived weekday depends only on the date part
(no timezone or time-of-day adjustment). -/
theorem weekday_monday_zero_convention :
    ((datetimeCombine ⟨2024, 3, 11⟩ ⟨14, 30⟩).weekday = 0)
  ∧ ((datetimeCombine ⟨2024, 3, 17⟩ ⟨14, 30⟩).weekday = 6)
  ∧ ∀ (d : Date) (t t' : Time),
      (datetimeCombine d t).weekday = (datetimeCombine d t').weekday :=
  ⟨by decide, by decide, fun _ _ _ => rfl⟩

/-- C10: for every pair of selectable options and any widget/collaborator
state, both location blocks resolve without uncaught exception, each block's
latitude is `None` exactly when its longitude is, and therefore the estimate
trigger's check of the two latitudes alone is equivalent to checking all
four coordinate components. -/
theorem lat_none_iff_lon_none (popt dopt paddr daddr : String)
    (pmlat pmlon dmlat dmlon : ℚ) (pgeo dgeo : GeoResponse)
    (pw pi dw di : String)
    (hp : popt ∈ locationOptions) (hd : dopt ∈ locationOptions) :
    ∃ plat plon pmsgs pcalls dlat dlon dmsgs dcalls,
      resolveLocation popt paddr pmlat pmlon pgeo pw pi =
        some ((plat, plon), pmsgs, pcalls) ∧
      resolveLocation dopt daddr dmlat dmlon dgeo dw di =
        some ((dlat, dlon), dmsgs, dcalls) ∧
      (plat = none ↔ plon = none) ∧ (dlat = none ↔ dlon = none) ∧
      ((plat = none ∨ dlat = none) ↔
        (plat = none ∨ plon = none ∨ dlat = none ∨ dlon = none)) := by
  obtain ⟨plat, plon, pmsgs, pcalls, hp1, hp2⟩ :=
    resolveLocation_options_total popt paddr pmlat pmlon pgeo pw pi hp
  obtain ⟨dlat, dlon, dmsgs, dcalls, hd1, hd2⟩ :=
    resolveLocation_options_total dopt daddr dmlat dmlon dgeo dw di hd
  exact ⟨plat, plon, pmsgs, pcalls, dlat, dlon, dmsgs, dcalls, hp1, hd1,
    hp2, hd2, by tauto⟩

theorem lat_none_iff_lon_none_witness :
    ∃ plat plon pmsgs pcalls dlat dlon dmsgs dcalls,
      resolveLocation "Times Square" "" 0 0 GeoResponse.noMatch "pw" "pi" =
        some ((plat, plon), pmsgs, pcalls) ∧
      resolveLocation "Custom Address" "5th Avenue" 0 0 GeoResponse.noMatch
          "dw" "di" =
        some ((dlat, dlon), dmsgs, dcalls) ∧
      (plat = none ↔ plon = none) ∧ (dlat = none ↔ dlon = none) ∧
      ((plat = none ∨ dlat = none) ↔
        (plat = none ∨ plon = none ∨ dlat = none ∨ dlon = none)) :=
  lat_none_iff_lon_none "Times Square" "Custom Address" "" "5th Avenue"
    0 0 0 0 GeoResponse.noMatch GeoResponse.noMatch "pw" "pi" "dw" "di"
    (by decide) (by decide)
